import Mathlib

deriving instance DecidableEq for Except

/-!
Verification development for the sandbox lifecycle and concurrency-control
layer of the cheatcode backend.

The Lean definitions below are a shallow embedding of the Python source:

* `backend/sandbox/sandbox.py` — `get_or_start_sandbox`,
  `create_sandbox_from_snapshot`, `find_sandbox_by_project`,
  `find_sandboxes_by_account`, `find_sandboxes_by_labels`;
* `backend/utils/dev_server_manager.py` — `DevServerManager.release_dev_server_lock`;
* `backend/agent/tools/sb_shell_tool.py` — `SandboxShellTool.execute_command`,
  `SandboxShellTool._ensure_session`, `SandboxShellTool._is_dev_server_command`,
  `SandboxShellTool._check_dev_server_status`.

The async effects of the Python code are modelled by explicit state passing:
the Redis coordination store is a function from keys to optional values, and
each remote (Daytona) call is resolved by an environment record that fixes the
outcome the remote service would have produced.  Exceptions of the Python code
are modelled with `Except`/`Option` results.  Time stamps are `Nat` values
provided by the environment, and sleep durations are recorded in milliseconds.
The model has a single caller: interference from other processes is expressed
by quantifying over the initial contents of the coordination store.
-/

namespace Cheatcode

/-! ## Coordination store (Redis client used via services.redis) -/

/-- Key-value view of the coordination store.  `none` means the key is absent. -/
abbrev Store := String → Option String

/-- Store with no keys. -/
def emptyStore : Store := fun _ => none

/-- Model of `redis.get key`. -/
def redisGet (s : Store) (k : String) : Option String := s k

/-- Model of `redis.set key value` (unconditional overwrite). -/
def redisSetKV (s : Store) (k v : String) : Store :=
  fun x => if x = k then some v else s x

/-- Model of `redis.set key value nx=True`: succeeds only when the key is
absent, returning whether the set happened together with the new store. -/
def redisSetNX (s : Store) (k v : String) : Bool × Store :=
  match s k with
  | some _ => (false, s)
  | none => (true, redisSetKV s k v)

/-- Model of `redis.delete key`. -/
def redisDel (s : Store) (k : String) : Store :=
  fun x => if x = k then none else s x

/-! ## String helpers mirroring the Python operators used by the source -/

/-- Model of the Python substring operator `pat in hay`. -/
def strContains (hay pat : String) : Bool := decide (pat.data <:+: hay.data)

/-- ASCII lower-casing of one character, as done by `str.lower()` on the ASCII
command and error strings handled by this code. -/
def lowerChar (c : Char) : Char :=
  if 'A' ≤ c ∧ c ≤ 'Z' then Char.ofNat (c.toNat + 32) else c

/-- Model of Python `str.lower()` (ASCII fragment). -/
def strLower (s : String) : String := ⟨s.data.map lowerChar⟩

/-- Whitespace test used by `str.strip()`. -/
def isWsp (c : Char) : Bool :=
  c = ' ' || c = '\t' || c = '\n' || c = '\r' || c = '\x0b' || c = '\x0c'

/-- Model of Python `str.strip()`: drop leading and trailing whitespace. -/
def strStrip (s : String) : String :=
  ⟨((s.data.dropWhile isWsp).reverse.dropWhile isWsp).reverse⟩

/-- Model of the Python slice `s[:n]` (first `n` characters). -/
def strTake (s : String) (n : Nat) : String := ⟨s.data.take n⟩

/-! ## Sandbox data model (daytona SDK objects as seen by sandbox.py) -/

/-- Lifecycle states of a sandbox (`daytona.SandboxState`). -/
inductive SandboxState where
  | creating
  | running
  | stopped
  | archived
  | errored
deriving DecidableEq, Repr

/-- The attributes of a listed sandbox that `get_or_start_sandbox` reads:
`s.id`, `getattr(s, ..state.., None)`, and the `updated_at` / `created_at`
timestamps used for eviction ordering (absent attribute = `none`). -/
structure SbInfo where
  id : String
  state : Option SandboxState
  updated_at : Option Nat
  created_at : Option Nat
deriving DecidableEq, Repr

/-- Sort key of the eviction policy:
`getattr(s, ..updated_at.., getattr(s, ..created_at.., 0))`. -/
def sortKey (x : SbInfo) : Nat := x.updated_at.getD (x.created_at.getD 0)

/-- Head of the stable sort of `running` by `sortKey`
(`running.sort(key=...); oldest = running[0]`): the first element attaining
the minimal key. -/
def selectOldest : List SbInfo → Option SbInfo
  | [] => none
  | x :: xs => some (xs.foldl (fun best y => if sortKey y < sortKey best then y else best) x)

/-! ## Observable events of get_or_start_sandbox -/

/-- Trace events: lock-acquisition attempts and sleeps on the coordination
store side, and the provisioning-service (Daytona) calls. -/
inductive Ev where
  | acquireAttempt
  | sleep (ms : Nat)
  | daytonaGet
  | daytonaStart
  | daytonaStop (id : String)
  | daytonaList
deriving DecidableEq, Repr

/-- Number of `daytona.start` calls in a trace. -/
def countStarts (l : List Ev) : Nat := (l.filter (· = Ev.daytonaStart)).length

/-- Number of lock-acquisition attempts in a trace. -/
def countAcquires (l : List Ev) : Nat := (l.filter (· = Ev.acquireAttempt)).length

/-- The `daytona.stop` calls in a trace, in order. -/
def stopCalls (l : List Ev) : List String :=
  l.filterMap (fun e => match e with | Ev.daytonaStop i => some i | _ => none)

/-- True when the trace contains some provisioning-service call
(fetch, start, stop or list). -/
def hasDaytonaCall (l : List Ev) : Bool :=
  l.any (fun e =>
    match e with
    | Ev.daytonaGet => true
    | Ev.daytonaStart => true
    | Ev.daytonaStop _ => true
    | Ev.daytonaList => true
    | _ => false)

/-! ## get_or_start_sandbox (backend/sandbox/sandbox.py lines 75-219) -/

/-- Environment fixing the outcome of each remote call `get_or_start_sandbox`
may issue: `daytona.get` (the state of the target sandbox, or a failure),
the first `daytona.start` (`none` = success, `some msg` = exception message),
`daytona.list` during eviction, `daytona.stop` of the victim (only logged, so
its outcome is recorded but interchangeable), and the retried `daytona.start`. -/
structure GosEnv where
  getResult : Except String SandboxState
  startResult : Option String
  listResult : Except String (List SbInfo)
  stopResult : Option String
  retryStartResult : Option String

/-- Result of `get_or_start_sandbox`: the returned sandbox id or the raised
exception message, the final coordination store, and the event trace. -/
structure GosOut where
  result : Except String String
  store : Store
  events : List Ev

/-- Lock-acquisition loop of `get_or_start_sandbox` (lines 88-103):
`for attempt in range(4)` of `redis.set(lock_key, lock_value, nx=True, ex=10)`
with sleeps of `0.1 * 2**attempt` seconds (here milliseconds) after every
failed attempt except the last.  The `redis.get` used only for a debug log
between attempts is omitted. -/
def acquireLoop (k v : String) : List Nat → Store → Bool × Store × List Ev
  | [], s => (false, s, [])
  | a :: rest, s =>
    match redisSetNX s k v with
    | (true, s1) => (true, s1, [Ev.acquireAttempt])
    | (false, s1) =>
      let next := acquireLoop k v rest s1
      if a < 3 then
        (next.1, next.2.1, Ev.acquireAttempt :: Ev.sleep (100 * 2 ^ a) :: next.2.2)
      else
        (next.1, next.2.1, Ev.acquireAttempt :: next.2.2)

/-- Release step in the `finally` block (lines 205-219): read the current
value; delete only when it is non-empty (Python truthiness) and still contains
the token of this caller as a substring. -/
def releaseSandboxStateLock (s : Store) (lockKey lockValue : String) : Store :=
  match s lockKey with
  | none => s
  | some cur => if cur ≠ "" ∧ strContains cur lockValue = true then redisDel s lockKey else s

/-- Memory-quota eviction-and-retry handler (lines 150-190): refresh the lock
value to `retrying_memory:...`, list all sandboxes, filter the RUNNING ones
other than the target, stop the oldest of them under a best-effort `nx` lock
(skipping the stop with a warning when that lock is not acquired), and then
retry `daytona.start` once unconditionally; any exception inside the handler
(list failure, retry failure) re-raises the original quota error. -/
def gosEviction (env : GosEnv) (s : Store) (lockKey lockValue sandbox_id origErr : String) :
    Except String String × Store × List Ev :=
  let s1 := redisSetKV s lockKey ("retrying_memory:" ++ lockValue)
  match env.listResult with
  | .error _ => (.error origErr, s1, [Ev.daytonaList])
  | .ok sbs =>
    let running := sbs.filter (fun x => decide (x.state = some SandboxState.running ∧ x.id ≠ sandbox_id))
    let stopStep : List Ev × Store :=
      match selectOldest running with
      | none => ([], s1)
      | some oldest =>
        let stopKey := "sandbox_state_lock:" ++ oldest.id
        let nx := redisSetNX s1 stopKey ("emergency_stop:" ++ lockValue)
        if nx.1 then ([Ev.daytonaStop oldest.id], redisDel nx.2 stopKey)
        else ([], nx.2)
    match env.retryStartResult with
    | none => (.ok sandbox_id, stopStep.2, Ev.daytonaList :: stopStep.1 ++ [Ev.daytonaStart])
    | some _ => (.error origErr, stopStep.2, Ev.daytonaList :: stopStep.1 ++ [Ev.daytonaStart])

/-- Body of the `try` block of `get_or_start_sandbox` (lines 108-200):
fetch the sandbox; when STOPPED or ARCHIVED refresh the lock to
`starting:...` and start it, classifying a start failure by message:
memory-quota pattern triggers eviction-and-retry, an already-running pattern
is treated as success, anything else re-raises.  The `wait_for_sandbox_start`
and supervisord steps only log and never change the outcome, so they are not
part of the observable model. -/
def gosBody (env : GosEnv) (s : Store) (lockKey lockValue sandbox_id : String) :
    Except String String × Store × List Ev :=
  match env.getResult with
  | .error m => (.error m, s, [Ev.daytonaGet])
  | .ok st =>
    if st = SandboxState.archived ∨ st = SandboxState.stopped then
      let sA := redisSetKV s lockKey ("starting:" ++ lockValue)
      match env.startResult with
      | none => (.ok sandbox_id, sA, [Ev.daytonaGet, Ev.daytonaStart])
      | some m =>
        if strContains m "Total memory quota exceeded" then
          let e := gosEviction env sA lockKey lockValue sandbox_id m
          (e.1, e.2.1, Ev.daytonaGet :: Ev.daytonaStart :: e.2.2)
        else if strContains m "RUNNING" || strContains (strLower m) "already running" then
          (.ok sandbox_id, sA, [Ev.daytonaGet, Ev.daytonaStart])
        else
          (.error m, sA, [Ev.daytonaGet, Ev.daytonaStart])
    else
      (.ok sandbox_id, s, [Ev.daytonaGet])

/-- Model of `get_or_start_sandbox(sandbox_id)` (lines 75-219).  `task` and
`now` supply `asyncio.current_task().get_name()` and `int(time.time())` for
the lock token; `store0` is the coordination store when the call begins. -/
def get_or_start_sandbox (env : GosEnv) (sandbox_id task : String) (now : Nat)
    (store0 : Store) : GosOut :=
  let lockKey := "sandbox_state_lock:" ++ sandbox_id
  let lockValue := "start_operation:" ++ task ++ ":" ++ toString now
  let acq := acquireLoop lockKey lockValue [0, 1, 2, 3] store0
  if acq.1 then
    let b := gosBody env acq.2.1 lockKey lockValue sandbox_id
    { result := b.1
      store := releaseSandboxStateLock b.2.1 lockKey lockValue
      events := acq.2.2 ++ b.2.2 }
  else
    { result := .error ("Cannot acquire lock for sandbox " ++ sandbox_id ++ " state operations after 4 attempts")
      store := acq.2.1
      events := acq.2.2 }

/-! ## DevServerManager.release_dev_server_lock
(backend/utils/dev_server_manager.py lines 145-153) -/

/-- Model of `DevServerManager.release_dev_server_lock(server_type)`:
an unconditional `redis.delete` of the lock key — no read of the stored value
and no owner-token comparison appear in the source. -/
def release_dev_server_lock (s : Store) (sandbox_id serverType : String) : Store :=
  redisDel s ("dev_server_lock:" ++ sandbox_id ++ ":" ++ serverType)

/-! ## Health probe (sb_shell_tool.py lines 626-666) -/

/-- Environment for `_check_dev_server_status`: whether the deterministic dev
session is tracked in `self._sessions`, the outcome of
`process.get_session` (the command list of the session, or an exception),
and the outcomes of the two possible `curl` port probes (the HTTP code
string printed by the probe command, or an exec exception). -/
structure ProbeEnv where
  tracked : Bool
  getSession : Except String (List String)
  portCheckSession : Except String String
  portCheckDirect : Except String String

/-- The fallthrough probe of `_check_dev_server_status` (lines 651-663):
with no usable tracked session, probe the well-known port directly; a
non-"000" code is RUNNING, an exec failure falls through to NOT_RUNNING. -/
def directPortProbe (env : ProbeEnv) : String :=
  match env.portCheckDirect with
  | .error _ => "not_running"
  | .ok code => if strStrip code ≠ "000" then "running" else "not_running"

/-- Model of `SandboxShellTool._check_dev_server_status` (lines 626-666).
With a tracked dev session: `get_session`; when it has commands, probe the
port, classifying non-"000" as running and "000" as session_exists; any
exception inside that block returns session_exists.  When the session has no
commands, or no session is tracked, fall through to the direct port probe.
The outer `except` returns not_running, so no exception propagates. -/
def check_dev_server_status (env : ProbeEnv) : String :=
  if env.tracked then
    match env.getSession with
    | .error _ => "session_exists"
    | .ok cmds =>
      if cmds.isEmpty then directPortProbe env
      else
        match env.portCheckSession with
        | .error _ => "session_exists"
        | .ok code => if strStrip code ≠ "000" then "running" else "session_exists"
  else directPortProbe env

/-! ## SandboxShellTool.execute_command (sb_shell_tool.py lines 339-485) -/

/-- Substring patterns of `_is_dev_server_command` (lines 605-624). -/
def dev_server_command_patterns : List String :=
  ["pnpm run dev", "npm run dev", "yarn dev", "next dev", "npm start",
   "pnpm start", "pnpm dev", "expo start", "npx expo start",
   "npx expo start --port", "expo start --port", "yarn start",
   "react-native start", "metro start"]

/-- Model of `_is_dev_server_command`: lower-case and strip the command, then
match it against the fixed pattern list by substring. -/
def is_dev_server_command (command : String) : Bool :=
  dev_server_command_patterns.any (fun p => strContains (strStrip (strLower command)) p)

/-- Events of the shell tool: session creation
(`process.create_session`), non-blocking session command execution
(`process.execute_session_command`), and direct blocking `process.exec`. -/
inductive ShellEv where
  | sessionCreate
  | sessionExec
  | procExec
deriving DecidableEq, Repr

/-- The distinct response shapes `execute_command` can return.
`skippedRedundant` carries `skipped_redundant_startup: true`;
`skippedConcurrent` carries `skipped_concurrent_startup: true`. -/
inductive ExecResponse where
  | skippedRedundant (output : String)
  | skippedConcurrent
  | blockingResult (output : String) (exitCode : Int)
  | started (sessionName sessionId cmdId : String)
  | failure (msg : String)
deriving DecidableEq, Repr

/-- Environment for `execute_command`: the identity of the sandbox and app
type, the task name and the `time.time()` readings used for lock values, the
probe outcomes for the status checks, the uuid values the call would draw,
and the outcomes of the remote session calls. -/
structure ShellEnv where
  sandboxId : String
  appType : String
  taskName : String
  now : Nat
  now2 : Nat
  probeNoLock : ProbeEnv
  probeLocked : ProbeEnv
  newSessionId : String
  randName : String
  createSession : Option String
  execSession : Except String String
  blockingExec : Except String (String × Int)

/-- Model of `_ensure_session` (lines 247-294).  For a tracked name, return
the cached id.  Dev-server names take a `session_create:...` nx lock
(best-effort: on contention the code sleeps, re-checks the local map and
proceeds anyway), create the session, and release the lock in a `finally`
only when it was acquired; a creation failure propagates unwrapped.
Other names create directly, wrapping a failure in
`Failed to create session: ...`. -/
def ensure_session (env : ShellEnv) (sessionName : String) (s : Store)
    (sessions : List (String × String)) :
    Except String String × Store × List (String × String) × List ShellEv :=
  match sessions.lookup sessionName with
  | some sid => (.ok sid, s, sessions, [])
  | none =>
    if sessionName.startsWith "dev_server_" then
      let slKey := "session_create:" ++ env.sandboxId ++ ":" ++ sessionName
      let slVal := toString env.now ++ ":" ++ env.taskName
      match redisSetNX s slKey slVal with
      | (acq, s1) =>
        match env.createSession with
        | none =>
          let s2 := if acq then redisDel s1 slKey else s1
          (.ok env.newSessionId, s2, (sessionName, env.newSessionId) :: sessions,
           [ShellEv.sessionCreate])
        | some m =>
          let s2 := if acq then redisDel s1 slKey else s1
          (.error m, s2, sessions, [ShellEv.sessionCreate])
    else
      match env.createSession with
      | none =>
        (.ok env.newSessionId, s, (sessionName, env.newSessionId) :: sessions,
         [ShellEv.sessionCreate])
      | some m =>
        (.error ("Failed to create session: " ++ m), s, sessions, [ShellEv.sessionCreate])

/-- Dev-server lock key used by `execute_command` (line 353). -/
def devServerLockKey (sandboxId appType : String) : String :=
  "dev_server_start:" ++ sandboxId ++ ":" ++ appType

/-- Success message of the pre-lock already-running short-circuit (line 367). -/
def msgAlreadyRunningNoLock : String :=
  "Development server is already running in existing session. No need to start a new one.\nPreview loads automatically in the preview panel."

/-- Success message of the post-lock already-running short-circuit (line 389). -/
def msgAlreadyRunningLocked : String :=
  "Development server is already running. No need to start a new one.\nPreview loads automatically in the preview panel."

/-- Main execution path of `execute_command` after the dev-server lock
handling (lines 409-482): blocking commands go through `process.exec`;
non-blocking commands resolve a session name (deterministic
`dev_server_{app_type}` for dev commands, random otherwise), ensure the
session, issue the non-blocking session command, and for dev commands attempt
an opportunistic release of the dev lock guarded by the loose substring check
of lines 474-477 (first 8 characters of a fresh `time.time()` reading, or the
task name). -/
def shellMainExec (env : ShellEnv) (command : String) (sessionNameOpt : Option String)
    (blocking : Bool) (s : Store) (sessions : List (String × String)) :
    ExecResponse × Store × List (String × String) × List ShellEv :=
  if blocking then
    match env.blockingExec with
    | .ok (out, code) => (.blockingResult out code, s, sessions, [ShellEv.procExec])
    | .error m =>
      (.failure ("Error executing blocking command: " ++ m), s, sessions, [ShellEv.procExec])
  else
    let sessionName :=
      match sessionNameOpt with
      | some n => n
      | none =>
        if is_dev_server_command command then "dev_server_" ++ env.appType
        else "session_" ++ env.randName
    match ensure_session env sessionName s sessions with
    | (.error m, s1, sessions1, evs) =>
      (.failure ("Error executing command: " ++ m), s1, sessions1, evs)
    | (.ok sessionId, s1, sessions1, evs) =>
      match env.execSession with
      | .error m =>
        (.failure ("Error executing command: " ++ m), s1, sessions1,
         evs ++ [ShellEv.sessionExec])
      | .ok cmdId =>
        let s2 :=
          if is_dev_server_command command then
            let devKey := devServerLockKey env.sandboxId env.appType
            match s1 devKey with
            | some cur =>
              if cur ≠ "" ∧
                  (strContains cur (strTake (toString env.now2) 8) ||
                   strContains cur env.taskName) = true then
                redisDel s1 devKey
              else s1
            | none => s1
          else s1
        (.started sessionName sessionId cmdId, s2, sessions1,
         evs ++ [ShellEv.sessionExec])

/-- Model of `SandboxShellTool.execute_command` (lines 339-485).  For a
dev-server-classified command: take the `dev_server_start:...` nx lock; on
contention answer from the health probe (running → skipped_redundant payload,
otherwise → skipped_concurrent payload); after acquiring, re-check health and
short-circuit to the skipped_redundant payload when already running — the
source returns there without deleting the lock key (its comment mentions a
finally block that does not exist), so the model keeps the key in the store.
All other commands skip the dev-server handling entirely. -/
def execute_command (env : ShellEnv) (command : String) (sessionNameOpt : Option String)
    (blocking : Bool) (store0 : Store) (sessions0 : List (String × String)) :
    ExecResponse × Store × List (String × String) × List ShellEv :=
  if is_dev_server_command command then
    let devKey := devServerLockKey env.sandboxId env.appType
    let lockValue := toString env.now ++ ":" ++ env.taskName
    match redisSetNX store0 devKey lockValue with
    | (false, s1) =>
      if check_dev_server_status env.probeNoLock = "running" then
        (.skippedRedundant msgAlreadyRunningNoLock, s1, sessions0, [])
      else
        (.skippedConcurrent, s1, sessions0, [])
    | (true, s1) =>
      if check_dev_server_status env.probeLocked = "running" then
        (.skippedRedundant msgAlreadyRunningLocked, s1, sessions0, [])
      else
        shellMainExec env command sessionNameOpt blocking s1 sessions0
  else
    shellMainExec env command sessionNameOpt blocking store0 sessions0

/-! ## create_sandbox_from_snapshot (sandbox.py lines 240-359) -/

/-- The two failure shapes of `daytona.create`: a client-side
`asyncio.TimeoutError` of the 300 second call timeout, or any other exception
carrying a message string. -/
inductive CreateFailure where
  | clientTimeout
  | serverError (msg : String)
deriving DecidableEq, Repr

/-- Provider-side timeout pattern of line 339:
`"400" in error_msg and "Timeout after 60 seconds" in error_msg`. -/
def isDaytonaServerTimeout (m : String) : Bool :=
  strContains m "400" && strContains m "Timeout after 60 seconds"

/-- Retry loop of `create_sandbox_from_snapshot` (lines 312-356), with
`max_retries = 2` and `base_delay = 10`: attempts are indexed 0, 1, 2 and a
sleep of `10 * 2**(attempt-1)` seconds precedes every retry.  .ok means the
sandbox was created.  A `TimeoutError` retries until the attempts are
exhausted; a message matching the provider-side timeout pattern does the
same; every other failure raises immediately with a message carrying the
provider message.  The outcome oracle gives the result of the `daytona.create`
call at each attempt index (`none` = success).  The returned numbers are the
count of create attempts issued and the list of sleep delays in seconds. -/
def createLoop (snapshot : String) (outcome : Nat → Option CreateFailure) :
    List Nat → Except String Unit × Nat × List Nat
  | [] => (.error "unreachable: every final attempt returns or raises", 0, [])
  | a :: rest =>
    let sleeps : List Nat := if a > 0 then [10 * 2 ^ (a - 1)] else []
    match outcome a with
    | none => (.ok (), 1, sleeps)
    | some CreateFailure.clientTimeout =>
      if a = 2 then
        (.error ("Sandbox creation timed out after 3 attempts. The snapshot " ++ snapshot ++ " may be too large or the Daytona server is overloaded."), 1, sleeps)
      else
        match createLoop snapshot outcome rest with
        | (r, n, ds) => (r, n + 1, sleeps ++ ds)
    | some (CreateFailure.serverError m) =>
      if isDaytonaServerTimeout m then
        if a < 2 then
          match createLoop snapshot outcome rest with
          | (r, n, ds) => (r, n + 1, sleeps ++ ds)
        else
          (.error "Sandbox creation failed after 3 attempts due to Daytona server timeouts. Try again later or contact support.", 1, sleeps)
      else
        (.error ("Failed to create sandbox from snapshot " ++ snapshot ++ ": " ++ m), 1, sleeps)

/-- Model of `create_sandbox_from_snapshot` restricted to its retry behaviour
(parameter building of lines 264-310 has no effect on the retry logic). -/
def create_sandbox_from_snapshot (snapshot : String) (outcome : Nat → Option CreateFailure) :
    Except String Unit × Nat × List Nat :=
  createLoop snapshot outcome [0, 1, 2]

/-! ## Label-based discovery helpers (sandbox.py lines 402-455) -/

/-- Model of `find_sandbox_by_project`: list sandboxes labelled with the
project id; the first hit when the list is non-empty, `None` when empty, and
`None` again when the list call raises. -/
def find_sandbox_by_project (projectId : String) (listResult : Except String (List SbInfo)) :
    Option SbInfo :=
  match listResult with
  | .error _ => none
  | .ok l => l.head?

/-- Model of `find_sandboxes_by_account`: the provider list, or `[]` when the
list call raises. -/
def find_sandboxes_by_account (accountId : String) (listResult : Except String (List SbInfo)) :
    List SbInfo :=
  match listResult with
  | .error _ => []
  | .ok l => l

/-- Model of `find_sandboxes_by_labels`: the provider list, or `[]` when the
list call raises. -/
def find_sandboxes_by_labels (labels : List (String × String))
    (listResult : Except String (List SbInfo)) : List SbInfo :=
  match listResult with
  | .error _ => []
  | .ok l => l

/-! ## Helper lemmas -/

theorem strContains_iff (hay pat : String) :
    strContains hay pat = true ↔ pat.data <:+: hay.data := by
  simp [strContains]

theorem strContains_append_left (p v : String) : strContains (p ++ v) v = true := by
  rw [strContains_iff, String.data_append]
  exact (List.suffix_append p.data v.data).isInfix

theorem strContains_self (v : String) : strContains v v = true := by
  rw [strContains_iff]

theorem strContains_ne_empty {c v : String} (h : strContains c v = true) (hv : v ≠ "") :
    c ≠ "" := by
  intro hc
  subst hc
  rw [strContains_iff] at h
  have : v.data = [] := List.eq_nil_of_infix_nil h
  exact hv (String.ext this)

theorem prefixed_ne_empty {p v : String} (hp : p.data ≠ []) : p ++ v ≠ "" := by
  intro h
  have hd := congrArg String.data h
  rw [String.data_append] at hd
  rcases List.append_eq_nil.mp hd with ⟨h1, _⟩
  exact hp h1

theorem prefixed_append_ne {p a b : String} (h : a ≠ b) : p ++ a ≠ p ++ b := by
  intro he
  apply h
  have hd := congrArg String.data he
  rw [String.data_append, String.data_append] at hd
  exact String.ext (List.append_cancel_left hd)

theorem redisSetKV_self (s : Store) (k v : String) : (redisSetKV s k v) k = some v := by
  simp [redisSetKV]

theorem redisSetKV_other (s : Store) (k v x : String) (h : x ≠ k) :
    (redisSetKV s k v) x = s x := by
  simp [redisSetKV, h]

theorem redisDel_self (s : Store) (k : String) : (redisDel s k) k = none := by
  simp [redisDel]

theorem redisDel_other (s : Store) (k x : String) (h : x ≠ k) : (redisDel s k) x = s x := by
  simp [redisDel, h]

theorem countStarts_nil : countStarts [] = 0 := rfl

theorem countStarts_cons (e : Ev) (l : List Ev) :
    countStarts (e :: l) = (if e = Ev.daytonaStart then 1 else 0) + countStarts l := by
  by_cases h : e = Ev.daytonaStart <;> simp [countStarts, List.filter_cons, h] <;> omega

theorem countStarts_append (a b : List Ev) :
    countStarts (a ++ b) = countStarts a + countStarts b := by
  simp [countStarts, List.filter_append]

theorem countAcquires_nil : countAcquires [] = 0 := rfl

theorem countAcquires_cons (e : Ev) (l : List Ev) :
    countAcquires (e :: l) = (if e = Ev.acquireAttempt then 1 else 0) + countAcquires l := by
  by_cases h : e = Ev.acquireAttempt <;> simp [countAcquires, List.filter_cons, h] <;> omega

theorem countAcquires_append (a b : List Ev) :
    countAcquires (a ++ b) = countAcquires a + countAcquires b := by
  simp [countAcquires, List.filter_append]

theorem stopCalls_append (a b : List Ev) :
    stopCalls (a ++ b) = stopCalls a ++ stopCalls b := by
  simp [stopCalls, List.filterMap_append]

theorem acquireLoop_held {s : Store} {k : String} (v : String) {w : String}
    (h : s k = some w) :
    acquireLoop k v [0, 1, 2, 3] s =
      (false, s, [Ev.acquireAttempt, Ev.sleep 100, Ev.acquireAttempt, Ev.sleep 200,
                  Ev.acquireAttempt, Ev.sleep 400, Ev.acquireAttempt]) := by
  simp [acquireLoop, redisSetNX, h]

theorem acquireLoop_free {s : Store} {k : String} (v : String) (h : s k = none) :
    acquireLoop k v [0, 1, 2, 3] s = (true, redisSetKV s k v, [Ev.acquireAttempt]) := by
  simp [acquireLoop, redisSetNX, h]

theorem acquireLoop_acquire_bound (k v : String) (l : List Nat) (s : Store) :
    countAcquires (acquireLoop k v l s).2.2 ≤ l.length := by
  induction l generalizing s with
  | nil => simp [acquireLoop, countAcquires]
  | cons a rest ih =>
    unfold acquireLoop
    cases hnx : redisSetNX s k v with
    | mk b s1 =>
      cases b
      · have hih := ih s1
        by_cases ha : a < 3 <;> simp [ha, countAcquires_cons] <;> omega
      · simp [countAcquires]

theorem redisSetNX_of_present {s : Store} {k : String} (v : String) {w : String}
    (h : s k = some w) : redisSetNX s k v = (false, s) := by
  simp [redisSetNX, h]

theorem redisSetNX_of_absent {s : Store} {k : String} (v : String) (h : s k = none) :
    redisSetNX s k v = (true, redisSetKV s k v) := by
  simp [redisSetNX, h]

theorem redisSetNX_sets_only (s : Store) (k v : String) {x : String} (h : x ≠ k) :
    (redisSetNX s k v).2 x = s x := by
  unfold redisSetNX
  cases hk : s k
  · simp [redisSetKV, h]
  · simp

theorem releaseSandboxStateLock_noop {s : Store} {k v : String}
    (h : ∀ cur, s k = some cur → strContains cur v = false) :
    releaseSandboxStateLock s k v = s := by
  unfold releaseSandboxStateLock
  cases hk : s k with
  | none => rfl
  | some cur =>
    have := h cur hk
    simp [this]

theorem releaseSandboxStateLock_deletes {s : Store} {k v cur : String}
    (h : s k = some cur) (hne : cur ≠ "") (hcon : strContains cur v = true) :
    (releaseSandboxStateLock s k v) k = none := by
  unfold releaseSandboxStateLock
  simp only [h]
  rw [if_pos ⟨hne, hcon⟩]
  exact redisDel_self _ _

theorem gosLockValue_ne_empty (task : String) (now : Nat) :
    ("start_operation:" ++ task ++ ":" ++ toString now) ≠ "" := by
  apply prefixed_ne_empty
  rw [String.data_append]
  exact List.append_ne_nil_of_right_ne_nil _ (by decide)

theorem foldlMin_spec (xs : List SbInfo) (x : SbInfo) :
    (xs.foldl (fun best y => if sortKey y < sortKey best then y else best) x) ∈ x :: xs ∧
    sortKey (xs.foldl (fun best y => if sortKey y < sortKey best then y else best) x) ≤ sortKey x ∧
    ∀ u ∈ xs, sortKey (xs.foldl (fun best y => if sortKey y < sortKey best then y else best) x) ≤ sortKey u := by
  induction xs generalizing x with
  | nil => simp
  | cons a rest ih =>
    simp only [List.foldl_cons]
    by_cases h : sortKey a < sortKey x
    · rw [if_pos h]
      obtain ⟨hmem, hle, hall⟩ := ih a
      refine ⟨List.mem_cons_of_mem x hmem, le_trans hle (le_of_lt h), ?_⟩
      intro u hu
      rcases List.mem_cons.mp hu with h1 | h1
      · rw [h1]; exact hle
      · exact hall u h1
    · rw [if_neg h]
      obtain ⟨hmem, hle, hall⟩ := ih x
      have hxa : sortKey x ≤ sortKey a := Nat.le_of_not_lt h
      refine ⟨?_, hle, ?_⟩
      · rcases List.mem_cons.mp hmem with h1 | h1
        · rw [h1]; exact List.mem_cons_self _ _
        · exact List.mem_cons_of_mem x (List.mem_cons_of_mem a h1)
      · intro u hu
        rcases List.mem_cons.mp hu with h1 | h1
        · rw [h1]; exact le_trans hle hxa
        · exact hall u h1

theorem selectOldest_spec {l : List SbInfo} {v : SbInfo} (h : selectOldest l = some v) :
    v ∈ l ∧ ∀ u ∈ l, sortKey v ≤ sortKey u := by
  cases l with
  | nil => exact absurd h (by simp [selectOldest])
  | cons x xs =>
    have hv : v = xs.foldl (fun best y => if sortKey y < sortKey best then y else best) x := by
      simpa [selectOldest] using h.symm
    obtain ⟨hmem, hle, hall⟩ := foldlMin_spec xs x
    subst hv
    refine ⟨hmem, ?_⟩
    intro u hu
    rcases List.mem_cons.mp hu with h1 | h1
    · rw [h1]; exact hle
    · exact hall u h1

theorem mem_running_filter {sbs : List SbInfo} {sandbox_id : String} {x : SbInfo}
    (h : x ∈ sbs.filter (fun y => decide (y.state = some SandboxState.running ∧ y.id ≠ sandbox_id))) :
    x.state = some SandboxState.running ∧ x.id ≠ sandbox_id := by
  have := (List.mem_filter.mp h).2
  simpa using this

theorem gosBody_keeps_token (env : GosEnv) (s : Store) (sandbox_id lv : String)
    (hk : s ("sandbox_state_lock:" ++ sandbox_id) = some lv) :
    ∃ c, (gosBody env s ("sandbox_state_lock:" ++ sandbox_id) lv sandbox_id).2.1
            ("sandbox_state_lock:" ++ sandbox_id) = some c ∧
      (c = lv ∨ c = "starting:" ++ lv ∨ c = "retrying_memory:" ++ lv) := by
  unfold gosBody
  cases hg : env.getResult with
  | error m => simp only [hg]; exact ⟨lv, hk, Or.inl rfl⟩
  | ok st =>
    simp only [hg]
    by_cases hst : st = SandboxState.archived ∨ st = SandboxState.stopped
    · rw [if_pos hst]
      cases hsr : env.startResult with
      | none =>
        simp only [hsr]
        exact ⟨"starting:" ++ lv, redisSetKV_self _ _ _, Or.inr (Or.inl rfl)⟩
      | some m =>
        simp only [hsr]
        by_cases hq : strContains m "Total memory quota exceeded" = true
        · rw [if_pos hq]
          unfold gosEviction
          cases hlr : env.listResult with
          | error e =>
            simp only [hlr]
            exact ⟨"retrying_memory:" ++ lv, redisSetKV_self _ _ _, Or.inr (Or.inr rfl)⟩
          | ok sbs =>
            simp only [hlr]
            cases hsel : selectOldest (sbs.filter (fun x => decide (x.state = some SandboxState.running ∧ x.id ≠ sandbox_id))) with
            | none =>
              simp only [hsel]
              cases hr : env.retryStartResult <;> simp only [hr] <;>
                exact ⟨"retrying_memory:" ++ lv, redisSetKV_self _ _ _, Or.inr (Or.inr rfl)⟩
            | some oldest =>
              simp only [hsel]
              have hne : oldest.id ≠ sandbox_id :=
                (mem_running_filter (selectOldest_spec hsel).1).2
              have hkeys' : ("sandbox_state_lock:" ++ sandbox_id : String) ≠
                  "sandbox_state_lock:" ++ oldest.id :=
                fun h => (prefixed_append_ne hne) h.symm
              refine ⟨"retrying_memory:" ++ lv, ?_, Or.inr (Or.inr rfl)⟩
              have hretr : (redisSetKV (redisSetKV s ("sandbox_state_lock:" ++ sandbox_id) ("starting:" ++ lv))
                  ("sandbox_state_lock:" ++ sandbox_id) ("retrying_memory:" ++ lv))
                  ("sandbox_state_lock:" ++ sandbox_id) = some ("retrying_memory:" ++ lv) :=
                redisSetKV_self _ _ _
              by_cases hnx : (redisSetNX
                  (redisSetKV (redisSetKV s ("sandbox_state_lock:" ++ sandbox_id) ("starting:" ++ lv))
                    ("sandbox_state_lock:" ++ sandbox_id) ("retrying_memory:" ++ lv))
                  ("sandbox_state_lock:" ++ oldest.id) ("emergency_stop:" ++ lv)).1
              · cases hr : env.retryStartResult <;> simp only [hr, hnx, if_true, if_false, ite_true, ite_false] <;>
                  rw [redisDel_other _ _ _ hkeys', redisSetNX_sets_only _ _ _ hkeys'] <;>
                  exact hretr
              · cases hr : env.retryStartResult <;>
                  simp only [hr, hnx, if_true, if_false, ite_true, ite_false, Bool.false_eq_true] <;>
                  rw [redisSetNX_sets_only _ _ _ hkeys'] <;> exact hretr
        · rw [if_neg hq]
          by_cases hb : (strContains m "RUNNING" || strContains (strLower m) "already running") = true
          · rw [if_pos hb]
            exact ⟨"starting:" ++ lv, redisSetKV_self _ _ _, Or.inr (Or.inl rfl)⟩
          · rw [if_neg hb]
            exact ⟨"starting:" ++ lv, redisSetKV_self _ _ _, Or.inr (Or.inl rfl)⟩
    · rw [if_neg hst]
      exact ⟨lv, hk, Or.inl rfl⟩

theorem gosBody_no_acquire (env : GosEnv) (s : Store) (k lv sandbox_id : String) :
    countAcquires (gosBody env s k lv sandbox_id).2.2 = 0 := by
  unfold gosBody
  cases hg : env.getResult with
  | error m => simp [hg, countAcquires]
  | ok st =>
    simp only [hg]
    by_cases hst : st = SandboxState.archived ∨ st = SandboxState.stopped
    · rw [if_pos hst]
      cases hsr : env.startResult with
      | none => simp [hsr, countAcquires]
      | some m =>
        simp only [hsr]
        by_cases hq : strContains m "Total memory quota exceeded" = true
        · rw [if_pos hq]
          unfold gosEviction
          cases hlr : env.listResult with
          | error e => simp [hlr, countAcquires]
          | ok sbs =>
            simp only [hlr]
            cases hsel : selectOldest (sbs.filter (fun x => decide (x.state = some SandboxState.running ∧ x.id ≠ sandbox_id))) with
            | none =>
              simp only [hsel]
              cases hr : env.retryStartResult <;> simp [hr, countAcquires]
            | some oldest =>
              simp only [hsel]
              by_cases hnx : (redisSetNX (redisSetKV (redisSetKV s k ("starting:" ++ lv)) k ("retrying_memory:" ++ lv))
                  ("sandbox_state_lock:" ++ oldest.id) ("emergency_stop:" ++ lv)).1 <;>
                cases hr : env.retryStartResult <;>
                  simp [hnx, hr, countAcquires]
        · rw [if_neg hq]
          by_cases hb : (strContains m "RUNNING" || strContains (strLower m) "already running") = true <;>
            simp [hb, countAcquires]
    · rw [if_neg hst]
      simp [countAcquires]

/-! ## Claim C8 -/

/-- Claim C8: `get_or_start_sandbox` attempts the lock at most 4 times; when
the lock is held throughout (all attempts fail), it sleeps 0.1 s, 0.2 s and
0.4 s between attempts (doubling from 0.1 s; recorded in ms), raises the
contention error, and issues no provisioning-service call at all. -/
theorem gos_contention_bounded_retry (env : GosEnv) (sandbox_id task : String) (now : Nat)
    (store0 : Store) :
    countAcquires (get_or_start_sandbox env sandbox_id task now store0).events ≤ 4 ∧
    (∀ w, store0 ("sandbox_state_lock:" ++ sandbox_id) = some w →
      (get_or_start_sandbox env sandbox_id task now store0).result =
        .error ("Cannot acquire lock for sandbox " ++ sandbox_id ++ " state operations after 4 attempts") ∧
      (get_or_start_sandbox env sandbox_id task now store0).events =
        [Ev.acquireAttempt, Ev.sleep 100, Ev.acquireAttempt, Ev.sleep 200,
         Ev.acquireAttempt, Ev.sleep 400, Ev.acquireAttempt] ∧
      hasDaytonaCall (get_or_start_sandbox env sandbox_id task now store0).events = false) := by
  constructor
  · simp only [get_or_start_sandbox]
    cases h0 : store0 ("sandbox_state_lock:" ++ sandbox_id) with
    | some w =>
      rw [acquireLoop_held _ h0]
      simp [countAcquires]
    | none =>
      rw [acquireLoop_free _ h0]
      have hz := gosBody_no_acquire env
        (redisSetKV store0 ("sandbox_state_lock:" ++ sandbox_id)
          ("start_operation:" ++ task ++ ":" ++ toString now))
        ("sandbox_state_lock:" ++ sandbox_id)
        ("start_operation:" ++ task ++ ":" ++ toString now) sandbox_id
      have h1 : countAcquires [Ev.acquireAttempt] = 1 := rfl
      simp only [eq_self_iff_true, if_true, countAcquires_append]
      omega
  · intro w hw
    simp only [get_or_start_sandbox]
    rw [acquireLoop_held _ hw]
    refine ⟨rfl, rfl, rfl⟩

/-- Claim C8 witness: a held lock makes the call fail with the contention
error after exactly the 4 attempts and 3 doubling sleeps, with no
provisioning call. -/
theorem gos_contention_bounded_retry_witness :
    (get_or_start_sandbox
        { getResult := .ok SandboxState.running, startResult := none,
          listResult := .ok [], stopResult := none, retryStartResult := none }
        "sb-7" "t" 5 (fun k => if k = "sandbox_state_lock:sb-7" then some "other" else none)).result =
      .error "Cannot acquire lock for sandbox sb-7 state operations after 4 attempts" ∧
    (get_or_start_sandbox
        { getResult := .ok SandboxState.running, startResult := none,
          listResult := .ok [], stopResult := none, retryStartResult := none }
        "sb-7" "t" 5 (fun k => if k = "sandbox_state_lock:sb-7" then some "other" else none)).events =
      [Ev.acquireAttempt, Ev.sleep 100, Ev.acquireAttempt, Ev.sleep 200,
       Ev.acquireAttempt, Ev.sleep 400, Ev.acquireAttempt] := by
  have h := (gos_contention_bounded_retry
    { getResult := .ok SandboxState.running, startResult := none,
      listResult := .ok [], stopResult := none, retryStartResult := none }
    "sb-7" "t" 5 (fun k => if k = "sandbox_state_lock:sb-7" then some "other" else none)).2
    "other" (by decide)
  exact ⟨h.1, h.2.1⟩

/-! ## Claim C5 -/

/-- Claim C5: on every exit path of `get_or_start_sandbox` — contention
failure, fetch failure, start failure of any classification, eviction, or
normal return — the final coordination store either no longer holds the
per-sandbox lock key, or holds a value that does not contain the token of this caller (i.e. the key was re-acquired by someone else before the call began;
the hypothesis states that any pre-existing holder stores a value that does not contain the fresh token of this caller). -/
theorem gos_lock_released_on_every_exit (env : GosEnv) (sandbox_id task : String) (now : Nat)
    (store0 : Store)
    (hclean : ∀ v, store0 ("sandbox_state_lock:" ++ sandbox_id) = some v →
        strContains v ("start_operation:" ++ task ++ ":" ++ toString now) = false) :
    (get_or_start_sandbox env sandbox_id task now store0).store
        ("sandbox_state_lock:" ++ sandbox_id) = none ∨
    ∃ v, (get_or_start_sandbox env sandbox_id task now store0).store
            ("sandbox_state_lock:" ++ sandbox_id) = some v ∧
        strContains v ("start_operation:" ++ task ++ ":" ++ toString now) = false := by
  simp only [get_or_start_sandbox]
  cases h0 : store0 ("sandbox_state_lock:" ++ sandbox_id) with
  | some w =>
    rw [acquireLoop_held _ h0]
    exact Or.inr ⟨w, h0, hclean w h0⟩
  | none =>
    rw [acquireLoop_free _ h0]
    left
    have hk1 : (redisSetKV store0 ("sandbox_state_lock:" ++ sandbox_id)
        ("start_operation:" ++ task ++ ":" ++ toString now)) ("sandbox_state_lock:" ++ sandbox_id) =
        some ("start_operation:" ++ task ++ ":" ++ toString now) := redisSetKV_self _ _ _
    obtain ⟨c, hc, hcs⟩ := gosBody_keeps_token env _ sandbox_id _ hk1
    have hcon : strContains c ("start_operation:" ++ task ++ ":" ++ toString now) = true := by
      rcases hcs with h | h | h <;> rw [h]
      · exact strContains_self _
      · exact strContains_append_left _ _
      · exact strContains_append_left _ _
    have hne : c ≠ "" := strContains_ne_empty hcon (gosLockValue_ne_empty task now)
    simp only [eq_self_iff_true, if_true]
    exact releaseSandboxStateLock_deletes hc hne hcon

/-- Claim C5 witness: a concrete run (sandbox already RUNNING, empty store)
satisfies the release property. -/
theorem gos_lock_released_on_every_exit_witness :
    (get_or_start_sandbox
        { getResult := .ok SandboxState.running, startResult := none,
          listResult := .ok [], stopResult := none, retryStartResult := none }
        "sb-5" "t" 9 emptyStore).store ("sandbox_state_lock:" ++ "sb-5") = none ∨
    ∃ v, (get_or_start_sandbox
        { getResult := .ok SandboxState.running, startResult := none,
          listResult := .ok [], stopResult := none, retryStartResult := none }
        "sb-5" "t" 9 emptyStore).store ("sandbox_state_lock:" ++ "sb-5") = some v ∧
      strContains v ("start_operation:" ++ "t" ++ ":" ++ toString 9) = false :=
  gos_lock_released_on_every_exit _ "sb-5" "t" 9 emptyStore
    (fun _ hv => Option.noConfusion hv)

theorem gosBody_start_failure_eval (env : GosEnv) (s : Store) (k lv id : String)
    (st : SandboxState) (m : String)
    (hget : env.getResult = .ok st)
    (hst : st = SandboxState.archived ∨ st = SandboxState.stopped)
    (hstart : env.startResult = some m)
    (hnq : strContains m "Total memory quota exceeded" = false) :
    gosBody env s k lv id =
      ((if (strContains m "RUNNING" || strContains (strLower m) "already running") = true
          then Except.ok id else Except.error m),
       redisSetKV s k ("starting:" ++ lv),
       [Ev.daytonaGet, Ev.daytonaStart]) := by
  unfold gosBody
  simp only [hget]
  rw [if_pos hst]
  simp only [hstart]
  rw [if_neg (by simp [hnq])]
  by_cases hb : (strContains m "RUNNING" || strContains (strLower m) "already running") = true
  · rw [if_pos hb, if_pos hb]
  · rw [if_neg hb, if_neg hb]

theorem gosBody_quota_eval (env : GosEnv) (s : Store) (k lv id : String)
    (st : SandboxState) (m : String)
    (hget : env.getResult = .ok st)
    (hst : st = SandboxState.archived ∨ st = SandboxState.stopped)
    (hstart : env.startResult = some m)
    (hq : strContains m "Total memory quota exceeded" = true) :
    gosBody env s k lv id =
      ((gosEviction env (redisSetKV s k ("starting:" ++ lv)) k lv id m).1,
       (gosEviction env (redisSetKV s k ("starting:" ++ lv)) k lv id m).2.1,
       Ev.daytonaGet :: Ev.daytonaStart ::
         (gosEviction env (redisSetKV s k ("starting:" ++ lv)) k lv id m).2.2) := by
  unfold gosBody
  simp only [hget]
  rw [if_pos hst]
  simp only [hstart]
  rw [if_pos hq]

theorem gosEviction_no_candidates_eval (env : GosEnv) (s : Store) (k lv id origErr : String)
    (sbs : List SbInfo)
    (hlist : env.listResult = .ok sbs)
    (hnone : sbs.filter (fun x => decide (x.state = some SandboxState.running ∧ x.id ≠ id)) = []) :
    gosEviction env s k lv id origErr =
      ((match env.retryStartResult with
        | none => Except.ok id
        | some _ => Except.error origErr),
       redisSetKV s k ("retrying_memory:" ++ lv),
       [Ev.daytonaList, Ev.daytonaStart]) := by
  unfold gosEviction
  simp only [hlist, hnone]
  have hsel : selectOldest [] = none := rfl
  simp only [hsel]
  cases hr : env.retryStartResult <;> simp only [hr] <;> rfl

theorem gosEviction_victim_events (env : GosEnv) (s : Store) (k lv id origErr : String)
    (sbs : List SbInfo) (victim : SbInfo)
    (hlist : env.listResult = .ok sbs)
    (hsel : selectOldest (sbs.filter (fun x => decide (x.state = some SandboxState.running ∧ x.id ≠ id))) = some victim) :
    (gosEviction env s k lv id origErr).2.2 =
      Ev.daytonaList ::
        (if (redisSetNX (redisSetKV s k ("retrying_memory:" ++ lv))
              ("sandbox_state_lock:" ++ victim.id) ("emergency_stop:" ++ lv)).1
         then [Ev.daytonaStop victim.id] else []) ++ [Ev.daytonaStart] := by
  unfold gosEviction
  simp only [hlist, hsel]
  cases hr : env.retryStartResult <;> simp only [hr] <;>
    by_cases hnx : (redisSetNX (redisSetKV s k ("retrying_memory:" ++ lv))
        ("sandbox_state_lock:" ++ victim.id) ("emergency_stop:" ++ lv)).1 = true <;>
      simp [hnx]

theorem gosEviction_result (env : GosEnv) (s : Store) (k lv id origErr : String)
    (sbs : List SbInfo)
    (hlist : env.listResult = .ok sbs) :
    (env.retryStartResult = none → (gosEviction env s k lv id origErr).1 = .ok id) ∧
    (∀ r, env.retryStartResult = some r → (gosEviction env s k lv id origErr).1 = .error origErr) := by
  unfold gosEviction
  simp only [hlist]
  constructor
  · intro hr
    simp only [hr]
  · intro r hr
    simp only [hr]

/-! ## Claim C6 -/

/-- Claim C6: when the start call fails with a message that matches the
already-running patterns (and not the quota pattern), `get_or_start_sandbox`
treats the failure as success: it returns the sandbox with exactly one start
call and no retry; a failure matching neither already-running nor
quota-exceeded propagates as an error (still with the single start call). -/
theorem gos_already_running_classification (env : GosEnv) (sandbox_id task : String)
    (now : Nat) (store0 : Store) (st : SandboxState) (m : String)
    (hfree : store0 ("sandbox_state_lock:" ++ sandbox_id) = none)
    (hget : env.getResult = .ok st)
    (hst : st = SandboxState.archived ∨ st = SandboxState.stopped)
    (hstart : env.startResult = some m)
    (hnq : strContains m "Total memory quota exceeded" = false) :
    ((strContains m "RUNNING" || strContains (strLower m) "already running") = true →
        (get_or_start_sandbox env sandbox_id task now store0).result = .ok sandbox_id ∧
        countStarts (get_or_start_sandbox env sandbox_id task now store0).events = 1) ∧
    ((strContains m "RUNNING" || strContains (strLower m) "already running") = false →
        (get_or_start_sandbox env sandbox_id task now store0).result = .error m ∧
        countStarts (get_or_start_sandbox env sandbox_id task now store0).events = 1) := by
  have heval := gosBody_start_failure_eval env
    (redisSetKV store0 ("sandbox_state_lock:" ++ sandbox_id)
      ("start_operation:" ++ task ++ ":" ++ toString now))
    ("sandbox_state_lock:" ++ sandbox_id) ("start_operation:" ++ task ++ ":" ++ toString now)
    sandbox_id st m hget hst hstart hnq
  constructor <;> intro hb <;> constructor <;>
    simp only [get_or_start_sandbox] <;>
    rw [acquireLoop_free _ hfree] <;>
    simp only [eq_self_iff_true, if_true, heval, hb] <;>
    first
      | rfl
      | decide
      | simp [countStarts]

/-- Claim C6 witness: an already-running message yields a normal success with
one start call; an unrelated message propagates with one start call. -/
theorem gos_already_running_classification_witness :
    ((get_or_start_sandbox
        { getResult := .ok SandboxState.stopped,
          startResult := some "sandbox is already RUNNING",
          listResult := .ok [], stopResult := none, retryStartResult := none }
        "sb-6" "t" 3 emptyStore).result = .ok "sb-6" ∧
      countStarts (get_or_start_sandbox
        { getResult := .ok SandboxState.stopped,
          startResult := some "sandbox is already RUNNING",
          listResult := .ok [], stopResult := none, retryStartResult := none }
        "sb-6" "t" 3 emptyStore).events = 1) ∧
    ((get_or_start_sandbox
        { getResult := .ok SandboxState.stopped,
          startResult := some "disk full",
          listResult := .ok [], stopResult := none, retryStartResult := none }
        "sb-6" "t" 3 emptyStore).result = .error "disk full" ∧
      countStarts (get_or_start_sandbox
        { getResult := .ok SandboxState.stopped,
          startResult := some "disk full",
          listResult := .ok [], stopResult := none, retryStartResult := none }
        "sb-6" "t" 3 emptyStore).events = 1) := by
  constructor
  · exact (gos_already_running_classification
      { getResult := .ok SandboxState.stopped,
        startResult := some "sandbox is already RUNNING",
        listResult := .ok [], stopResult := none, retryStartResult := none }
      "sb-6" "t" 3 emptyStore SandboxState.stopped "sandbox is already RUNNING"
      rfl rfl (Or.inr rfl) rfl (by decide)).1 (by decide)
  · exact (gos_already_running_classification
      { getResult := .ok SandboxState.stopped,
        startResult := some "disk full",
        listResult := .ok [], stopResult := none, retryStartResult := none }
      "sb-6" "t" 3 emptyStore SandboxState.stopped "disk full"
      rfl rfl (Or.inr rfl) rfl (by decide)).2 (by decide)

/-! ## Claim C1 -/

/-- Claim C1 counterexample: start fails with the quota message and the list
shows no other RUNNING sandbox, yet the call does NOT fail: the start is
retried (two start calls), no stop is issued, and the retry succeeding makes
the whole call return the sandbox — refuting the claim that with no eviction
candidate the call fails immediately without retrying. -/
theorem gos_quota_no_candidates_counterexample :
    (get_or_start_sandbox
        { getResult := .ok SandboxState.stopped,
          startResult := some "Total memory quota exceeded",
          listResult := .ok [], stopResult := none, retryStartResult := none }
        "sb-2" "t" 5 emptyStore).result = .ok "sb-2" ∧
    countStarts (get_or_start_sandbox
        { getResult := .ok SandboxState.stopped,
          startResult := some "Total memory quota exceeded",
          listResult := .ok [], stopResult := none, retryStartResult := none }
        "sb-2" "t" 5 emptyStore).events = 2 ∧
    stopCalls (get_or_start_sandbox
        { getResult := .ok SandboxState.stopped,
          startResult := some "Total memory quota exceeded",
          listResult := .ok [], stopResult := none, retryStartResult := none }
        "sb-2" "t" 5 emptyStore).events = [] := by
  decide

/-- Claim C1 (amended): on a quota-exceeded start failure the start is
retried exactly once whether or not another RUNNING sandbox exists; with no
candidate, no stop is issued, the retry still runs, and the call fails (with
the original quota error) only if the retry also fails. -/
theorem gos_quota_always_retries (env : GosEnv) (sandbox_id task : String)
    (now : Nat) (store0 : Store) (st : SandboxState) (m : String) (sbs : List SbInfo)
    (hfree : store0 ("sandbox_state_lock:" ++ sandbox_id) = none)
    (hget : env.getResult = .ok st)
    (hst : st = SandboxState.archived ∨ st = SandboxState.stopped)
    (hstart : env.startResult = some m)
    (hq : strContains m "Total memory quota exceeded" = true)
    (hlist : env.listResult = .ok sbs)
    (hnone : sbs.filter (fun x => decide (x.state = some SandboxState.running ∧ x.id ≠ sandbox_id)) = []) :
    countStarts (get_or_start_sandbox env sandbox_id task now store0).events = 2 ∧
    stopCalls (get_or_start_sandbox env sandbox_id task now store0).events = [] ∧
    (env.retryStartResult = none →
      (get_or_start_sandbox env sandbox_id task now store0).result = .ok sandbox_id) ∧
    (∀ r, env.retryStartResult = some r →
      (get_or_start_sandbox env sandbox_id task now store0).result = .error m) := by
  have heval := gosBody_quota_eval env
    (redisSetKV store0 ("sandbox_state_lock:" ++ sandbox_id)
      ("start_operation:" ++ task ++ ":" ++ toString now))
    ("sandbox_state_lock:" ++ sandbox_id) ("start_operation:" ++ task ++ ":" ++ toString now)
    sandbox_id st m hget hst hstart hq
  have hevic := gosEviction_no_candidates_eval env
    (redisSetKV (redisSetKV store0 ("sandbox_state_lock:" ++ sandbox_id)
        ("start_operation:" ++ task ++ ":" ++ toString now))
      ("sandbox_state_lock:" ++ sandbox_id)
      ("starting:" ++ ("start_operation:" ++ task ++ ":" ++ toString now)))
    ("sandbox_state_lock:" ++ sandbox_id) ("start_operation:" ++ task ++ ":" ++ toString now)
    sandbox_id m sbs hlist hnone
  refine ⟨?_, ?_, ?_, ?_⟩
  · simp only [get_or_start_sandbox]
    rw [acquireLoop_free _ hfree]
    simp only [eq_self_iff_true, if_true, heval, hevic]
    decide
  · simp only [get_or_start_sandbox]
    rw [acquireLoop_free _ hfree]
    simp only [eq_self_iff_true, if_true, heval, hevic]
    decide
  · intro hr
    simp only [get_or_start_sandbox]
    rw [acquireLoop_free _ hfree]
    simp only [eq_self_iff_true, if_true, heval, hevic, hr]
  · intro r hr
    simp only [get_or_start_sandbox]
    rw [acquireLoop_free _ hfree]
    simp only [eq_self_iff_true, if_true, heval, hevic, hr]

/-- Claim C1 witness: the amended retry-always behaviour at a concrete
environment with no eviction candidate and a failing retry. -/
theorem gos_quota_always_retries_witness :
    countStarts (get_or_start_sandbox
        { getResult := .ok SandboxState.archived,
          startResult := some "Total memory quota exceeded",
          listResult := .ok [], stopResult := none,
          retryStartResult := some "Total memory quota exceeded" }
        "sb-3" "t" 8 emptyStore).events = 2 ∧
    (get_or_start_sandbox
        { getResult := .ok SandboxState.archived,
          startResult := some "Total memory quota exceeded",
          listResult := .ok [], stopResult := none,
          retryStartResult := some "Total memory quota exceeded" }
        "sb-3" "t" 8 emptyStore).result = .error "Total memory quota exceeded" := by
  have h := gos_quota_always_retries
    { getResult := .ok SandboxState.archived,
      startResult := some "Total memory quota exceeded",
      listResult := .ok [], stopResult := none,
      retryStartResult := some "Total memory quota exceeded" }
    "sb-3" "t" 8 emptyStore SandboxState.archived "Total memory quota exceeded" []
    rfl rfl (Or.inl rfl) rfl (by decide) rfl rfl
  exact ⟨h.1, h.2.2.2 "Total memory quota exceeded" rfl⟩

/-! ## Claim C4 -/

/-- Claim C4 counterexample: a single other RUNNING sandbox exists and is the
eviction victim, but its per-sandbox lock is already held by someone else; the
source then SKIPS the stop call entirely (it does not proceed with the stop
after the warning) and still retries the start — refuting the claim that a
stop call is issued to the victim with the lock acquisition merely
best-effort. -/
theorem gos_eviction_lock_held_counterexample :
    stopCalls (get_or_start_sandbox
        { getResult := .ok SandboxState.stopped,
          startResult := some "Total memory quota exceeded",
          listResult := .ok [{ id := "sb-3", state := some SandboxState.running,
                               updated_at := some 10, created_at := none }],
          stopResult := none, retryStartResult := none }
        "sb-2" "t" 5
        (fun k => if k = "sandbox_state_lock:sb-3" then some "held-by-other" else none)).events = [] ∧
    countStarts (get_or_start_sandbox
        { getResult := .ok SandboxState.stopped,
          startResult := some "Total memory quota exceeded",
          listResult := .ok [{ id := "sb-3", state := some SandboxState.running,
                               updated_at := some 10, created_at := none }],
          stopResult := none, retryStartResult := none }
        "sb-2" "t" 5
        (fun k => if k = "sandbox_state_lock:sb-3" then some "held-by-other" else none)).events = 2 ∧
    (get_or_start_sandbox
        { getResult := .ok SandboxState.stopped,
          startResult := some "Total memory quota exceeded",
          listResult := .ok [{ id := "sb-3", state := some SandboxState.running,
                               updated_at := some 10, created_at := none }],
          stopResult := none, retryStartResult := none }
        "sb-2" "t" 5
        (fun k => if k = "sandbox_state_lock:sb-3" then some "held-by-other" else none)).result =
      .ok "sb-2" := by
  decide

/-- Claim C4 (amended): on a quota-exceeded start failure with at least one
other RUNNING sandbox, the victim is the first RUNNING sandbox (excluding the
target) minimising the last-updated (falling back to created) timestamp; a
stop call is issued to the victim ONLY when its per-sandbox lock is acquired
— when that lock is held by someone else the stop is skipped with a warning —
and in either case the original start is retried exactly once. -/
theorem gos_eviction_policy (env : GosEnv) (sandbox_id task : String)
    (now : Nat) (store0 : Store) (st : SandboxState) (m : String) (sbs : List SbInfo)
    (victim : SbInfo)
    (hfree : store0 ("sandbox_state_lock:" ++ sandbox_id) = none)
    (hget : env.getResult = .ok st)
    (hst : st = SandboxState.archived ∨ st = SandboxState.stopped)
    (hstart : env.startResult = some m)
    (hq : strContains m "Total memory quota exceeded" = true)
    (hlist : env.listResult = .ok sbs)
    (hsel : selectOldest (sbs.filter (fun x => decide (x.state = some SandboxState.running ∧ x.id ≠ sandbox_id))) = some victim) :
    victim ∈ sbs.filter (fun x => decide (x.state = some SandboxState.running ∧ x.id ≠ sandbox_id)) ∧
    (∀ u ∈ sbs.filter (fun x => decide (x.state = some SandboxState.running ∧ x.id ≠ sandbox_id)),
        sortKey victim ≤ sortKey u) ∧
    countStarts (get_or_start_sandbox env sandbox_id task now store0).events = 2 ∧
    (store0 ("sandbox_state_lock:" ++ victim.id) = none →
        stopCalls (get_or_start_sandbox env sandbox_id task now store0).events = [victim.id]) ∧
    (∀ w, store0 ("sandbox_state_lock:" ++ victim.id) = some w →
        stopCalls (get_or_start_sandbox env sandbox_id task now store0).events = []) := by
  obtain ⟨hmem, hmin⟩ := selectOldest_spec hsel
  have hne : victim.id ≠ sandbox_id := (mem_running_filter hmem).2
  have hkeys : ("sandbox_state_lock:" ++ victim.id : String) ≠ "sandbox_state_lock:" ++ sandbox_id :=
    prefixed_append_ne hne
  have heval := gosBody_quota_eval env
    (redisSetKV store0 ("sandbox_state_lock:" ++ sandbox_id)
      ("start_operation:" ++ task ++ ":" ++ toString now))
    ("sandbox_state_lock:" ++ sandbox_id) ("start_operation:" ++ task ++ ":" ++ toString now)
    sandbox_id st m hget hst hstart hq
  have hevE := gosEviction_victim_events env
    (redisSetKV (redisSetKV store0 ("sandbox_state_lock:" ++ sandbox_id)
        ("start_operation:" ++ task ++ ":" ++ toString now))
      ("sandbox_state_lock:" ++ sandbox_id)
      ("starting:" ++ ("start_operation:" ++ task ++ ":" ++ toString now)))
    ("sandbox_state_lock:" ++ sandbox_id) ("start_operation:" ++ task ++ ":" ++ toString now)
    sandbox_id m sbs victim hlist hsel
  have hSK : (redisSetKV (redisSetKV (redisSetKV store0 ("sandbox_state_lock:" ++ sandbox_id)
        ("start_operation:" ++ task ++ ":" ++ toString now))
      ("sandbox_state_lock:" ++ sandbox_id)
      ("starting:" ++ ("start_operation:" ++ task ++ ":" ++ toString now)))
      ("sandbox_state_lock:" ++ sandbox_id)
      ("retrying_memory:" ++ ("start_operation:" ++ task ++ ":" ++ toString now)))
      ("sandbox_state_lock:" ++ victim.id) = store0 ("sandbox_state_lock:" ++ victim.id) := by
    rw [redisSetKV_other _ _ _ _ hkeys, redisSetKV_other _ _ _ _ hkeys,
      redisSetKV_other _ _ _ _ hkeys]
  have hEVfull : (get_or_start_sandbox env sandbox_id task now store0).events =
      [Ev.acquireAttempt] ++ Ev.daytonaGet :: Ev.daytonaStart ::
        (Ev.daytonaList ::
          (if (redisSetNX (redisSetKV (redisSetKV (redisSetKV store0 ("sandbox_state_lock:" ++ sandbox_id)
                  ("start_operation:" ++ task ++ ":" ++ toString now))
                ("sandbox_state_lock:" ++ sandbox_id)
                ("starting:" ++ ("start_operation:" ++ task ++ ":" ++ toString now)))
                ("sandbox_state_lock:" ++ sandbox_id)
                ("retrying_memory:" ++ ("start_operation:" ++ task ++ ":" ++ toString now)))
              ("sandbox_state_lock:" ++ victim.id)
              ("emergency_stop:" ++ ("start_operation:" ++ task ++ ":" ++ toString now))).1
           then [Ev.daytonaStop victim.id] else []) ++ [Ev.daytonaStart]) := by
    simp only [get_or_start_sandbox]
    rw [acquireLoop_free _ hfree]
    simp only [eq_self_iff_true, if_true, heval]
    rw [hevE]
  refine ⟨hmem, hmin, ?_, ?_, ?_⟩
  · rw [hEVfull]
    by_cases h2 : (redisSetNX (redisSetKV (redisSetKV (redisSetKV store0 ("sandbox_state_lock:" ++ sandbox_id)
            ("start_operation:" ++ task ++ ":" ++ toString now))
          ("sandbox_state_lock:" ++ sandbox_id)
          ("starting:" ++ ("start_operation:" ++ task ++ ":" ++ toString now)))
          ("sandbox_state_lock:" ++ sandbox_id)
          ("retrying_memory:" ++ ("start_operation:" ++ task ++ ":" ++ toString now)))
        ("sandbox_state_lock:" ++ victim.id)
        ("emergency_stop:" ++ ("start_operation:" ++ task ++ ":" ++ toString now))).1 = true <;>
      simp [h2, countStarts, List.filter]
  · intro h0
    have hnx : (redisSetNX (redisSetKV (redisSetKV (redisSetKV store0 ("sandbox_state_lock:" ++ sandbox_id)
            ("start_operation:" ++ task ++ ":" ++ toString now))
          ("sandbox_state_lock:" ++ sandbox_id)
          ("starting:" ++ ("start_operation:" ++ task ++ ":" ++ toString now)))
          ("sandbox_state_lock:" ++ sandbox_id)
          ("retrying_memory:" ++ ("start_operation:" ++ task ++ ":" ++ toString now)))
        ("sandbox_state_lock:" ++ victim.id)
        ("emergency_stop:" ++ ("start_operation:" ++ task ++ ":" ++ toString now))).1 = true := by
      rw [redisSetNX_of_absent _ (by rw [hSK]; exact h0)]
    rw [hEVfull]
    simp [hnx, stopCalls]
  · intro w hw
    have hnx : (redisSetNX (redisSetKV (redisSetKV (redisSetKV store0 ("sandbox_state_lock:" ++ sandbox_id)
            ("start_operation:" ++ task ++ ":" ++ toString now))
          ("sandbox_state_lock:" ++ sandbox_id)
          ("starting:" ++ ("start_operation:" ++ task ++ ":" ++ toString now)))
          ("sandbox_state_lock:" ++ sandbox_id)
          ("retrying_memory:" ++ ("start_operation:" ++ task ++ ":" ++ toString now)))
        ("sandbox_state_lock:" ++ victim.id)
        ("emergency_stop:" ++ ("start_operation:" ++ task ++ ":" ++ toString now))).1 = false := by
      rw [redisSetNX_of_present _ (by rw [hSK]; exact hw)]
    rw [hEVfull]
    simp [hnx, stopCalls]

/-- Claim C4 witness: the amended eviction policy at a concrete environment
where the victim lock is free: the single oldest RUNNING sandbox receives the
stop call and the start is retried once. -/
theorem gos_eviction_policy_witness :
    stopCalls (get_or_start_sandbox
        { getResult := .ok SandboxState.stopped,
          startResult := some "Total memory quota exceeded",
          listResult := .ok
            [{ id := "sb-9", state := some SandboxState.running,
               updated_at := some 50, created_at := none },
             { id := "sb-3", state := some SandboxState.running,
               updated_at := some 10, created_at := none }],
          stopResult := none, retryStartResult := none }
        "sb-2" "t" 5 emptyStore).events = ["sb-3"] ∧
    countStarts (get_or_start_sandbox
        { getResult := .ok SandboxState.stopped,
          startResult := some "Total memory quota exceeded",
          listResult := .ok
            [{ id := "sb-9", state := some SandboxState.running,
               updated_at := some 50, created_at := none },
             { id := "sb-3", state := some SandboxState.running,
               updated_at := some 10, created_at := none }],
          stopResult := none, retryStartResult := none }
        "sb-2" "t" 5 emptyStore).events = 2 := by
  have h := gos_eviction_policy
    { getResult := .ok SandboxState.stopped,
      startResult := some "Total memory quota exceeded",
      listResult := .ok
        [{ id := "sb-9", state := some SandboxState.running,
           updated_at := some 50, created_at := none },
         { id := "sb-3", state := some SandboxState.running,
           updated_at := some 10, created_at := none }],
      stopResult := none, retryStartResult := none }
    "sb-2" "t" 5 emptyStore SandboxState.stopped "Total memory quota exceeded"
    [{ id := "sb-9", state := some SandboxState.running,
       updated_at := some 50, created_at := none },
     { id := "sb-3", state := some SandboxState.running,
       updated_at := some 10, created_at := none }]
    { id := "sb-3", state := some SandboxState.running,
      updated_at := some 10, created_at := none }
    rfl rfl (Or.inr rfl) rfl (by decide) rfl (by decide)
  exact ⟨h.2.2.2.1 rfl, h.2.2.1⟩

/-! ## Claim C9 -/

/-- Outcome oracle of the claim C9 counterexample: the first create attempt
raises the client-side `asyncio.TimeoutError` (not a provider error-message
pattern), the second succeeds. -/
def c9Oracle : Nat → Option CreateFailure :=
  fun n => if n = 0 then some CreateFailure.clientTimeout else none

/-- Claim C9 counterexample: a client-side timeout on the first attempt is
retried (two create attempts, one 10 s backoff sleep, overall success), even
though that failure does not match the provider-side timeout message pattern
— refuting the claim that only provider-side-pattern failures are retried. -/
theorem create_client_timeout_retried :
    c9Oracle 0 = some CreateFailure.clientTimeout ∧
    (create_sandbox_from_snapshot "snap" c9Oracle).2.1 = 2 ∧
    (create_sandbox_from_snapshot "snap" c9Oracle).2.2 = [10] ∧
    (create_sandbox_from_snapshot "snap" c9Oracle).1 = .ok () := by
  decide

/-- Claim C9 (amended): creation is retried only for timeout failures —
either the client-side 300 s timeout exception or a provider message matching
"400" plus "Timeout after 60 seconds" — with at most 2 retries (3 attempts)
and backoff delays 10 s then 20 s; a bad-request or any other non-timeout
failure raises immediately on the first occurrence, carrying the provider
message. -/
theorem create_retry_policy (snapshot : String) (outcome : Nat → Option CreateFailure) :
    (create_sandbox_from_snapshot snapshot outcome).2.1 ≤ 3 ∧
    (create_sandbox_from_snapshot snapshot outcome).2.2 =
      [10, 20].take ((create_sandbox_from_snapshot snapshot outcome).2.1 - 1) ∧
    (∀ m, outcome 0 = some (CreateFailure.serverError m) → isDaytonaServerTimeout m = false →
        (create_sandbox_from_snapshot snapshot outcome).1 =
          .error ("Failed to create sandbox from snapshot " ++ snapshot ++ ": " ++ m) ∧
        (create_sandbox_from_snapshot snapshot outcome).2.1 = 1) ∧
    (2 ≤ (create_sandbox_from_snapshot snapshot outcome).2.1 →
        outcome 0 = some CreateFailure.clientTimeout ∨
        ∃ m, outcome 0 = some (CreateFailure.serverError m) ∧ isDaytonaServerTimeout m = true) := by
  cases h0 : outcome 0 with
  | none => simp [create_sandbox_from_snapshot, createLoop, h0]
  | some f0 =>
    cases f0 with
    | clientTimeout =>
      cases h1 : outcome 1 with
      | none => simp [create_sandbox_from_snapshot, createLoop, h0, h1]
      | some f1 =>
        cases f1 with
        | clientTimeout =>
          cases h2 : outcome 2 with
          | none => simp [create_sandbox_from_snapshot, createLoop, h0, h1, h2]
          | some f2 =>
            cases f2 with
            | clientTimeout =>
              simp [create_sandbox_from_snapshot, createLoop, h0, h1, h2]
            | serverError m2 =>
              by_cases hp2 : isDaytonaServerTimeout m2 = true <;>
                simp [create_sandbox_from_snapshot, createLoop, h0, h1, h2, hp2]
        | serverError m1 =>
          by_cases hp1 : isDaytonaServerTimeout m1 = true
          · cases h2 : outcome 2 with
            | none => simp [create_sandbox_from_snapshot, createLoop, h0, h1, h2, hp1]
            | some f2 =>
              cases f2 with
              | clientTimeout =>
                simp [create_sandbox_from_snapshot, createLoop, h0, h1, h2, hp1]
              | serverError m2 =>
                by_cases hp2 : isDaytonaServerTimeout m2 = true <;>
                  simp [create_sandbox_from_snapshot, createLoop, h0, h1, h2, hp1, hp2]
          · simp [create_sandbox_from_snapshot, createLoop, h0, h1, hp1]
    | serverError m0 =>
      by_cases hp0 : isDaytonaServerTimeout m0 = true
      · cases h1 : outcome 1 with
        | none => simp [create_sandbox_from_snapshot, createLoop, h0, h1, hp0]
        | some f1 =>
          cases f1 with
          | clientTimeout =>
            cases h2 : outcome 2 with
            | none => simp [create_sandbox_from_snapshot, createLoop, h0, h1, h2, hp0]
            | some f2 =>
              cases f2 with
              | clientTimeout =>
                simp [create_sandbox_from_snapshot, createLoop, h0, h1, h2, hp0]
              | serverError m2 =>
                by_cases hp2 : isDaytonaServerTimeout m2 = true <;>
                  simp [create_sandbox_from_snapshot, createLoop, h0, h1, h2, hp0, hp2]
          | serverError m1 =>
            by_cases hp1 : isDaytonaServerTimeout m1 = true
            · cases h2 : outcome 2 with
              | none => simp [create_sandbox_from_snapshot, createLoop, h0, h1, h2, hp0, hp1]
              | some f2 =>
                cases f2 with
                | clientTimeout =>
                  simp [create_sandbox_from_snapshot, createLoop, h0, h1, h2, hp0, hp1]
                | serverError m2 =>
                  by_cases hp2 : isDaytonaServerTimeout m2 = true <;>
                    simp [create_sandbox_from_snapshot, createLoop, h0, h1, h2, hp0, hp1, hp2]
            · simp [create_sandbox_from_snapshot, createLoop, h0, h1, hp0, hp1]
      · simp [create_sandbox_from_snapshot, createLoop, h0, hp0]

/-- Claim C9 witness: the amended policy at a concrete oracle whose first
failure is a non-timeout provider error: immediate failure carrying the
message, one attempt, no sleeps. -/
theorem create_retry_policy_witness :
    (create_sandbox_from_snapshot "snap"
        (fun _ => some (CreateFailure.serverError "400 Bad Request: unknown snapshot"))).1 =
      .error "Failed to create sandbox from snapshot snap: 400 Bad Request: unknown snapshot" ∧
    (create_sandbox_from_snapshot "snap"
        (fun _ => some (CreateFailure.serverError "400 Bad Request: unknown snapshot"))).2.1 = 1 := by
  have h := (create_retry_policy "snap"
    (fun _ => some (CreateFailure.serverError "400 Bad Request: unknown snapshot"))).2.2.1
    "400 Bad Request: unknown snapshot" rfl (by decide)
  exact ⟨h.1, h.2⟩

/-! ## Claim C2 -/

/-- Claim C2 counterexample: `DevServerManager.release_dev_server_lock`
deletes the dev-server lock key even though the stored value belongs to a
different owner and does not contain the token of the releasing caller, refuting
the claim that every lock release checks the stored token before deleting. -/
theorem release_dev_server_lock_deletes_foreign_token :
    strContains "1700000000.5:other-task" "1700000099.5:my-task" = false ∧
    (release_dev_server_lock
        (fun k => if k = "dev_server_lock:sb-1:web" then some "1700000000.5:other-task" else none)
        "sb-1" "web") "dev_server_lock:sb-1:web" = none := by
  decide

/-- Claim C2 (amended): the sandbox-state lock release reads the stored value
and deletes only when it still contains the token of the caller (it is a no-op on
a token mismatch), while `DevServerManager.release_dev_server_lock` deletes
the dev-server lock key unconditionally, without any token comparison. -/
theorem lock_release_token_discipline :
    (∀ s : Store, ∀ k v : String,
        (∀ cur, s k = some cur → strContains cur v = false) →
        releaseSandboxStateLock s k v = s) ∧
    (∀ s : Store, ∀ k v cur : String,
        s k = some cur → cur ≠ "" → strContains cur v = true →
        (releaseSandboxStateLock s k v) k = none) ∧
    (∀ s : Store, ∀ sid t : String,
        (release_dev_server_lock s sid t) ("dev_server_lock:" ++ sid ++ ":" ++ t) = none) := by
  refine ⟨?_, ?_, ?_⟩
  · intro s k v hmis
    unfold releaseSandboxStateLock
    cases hk : s k with
    | none => rfl
    | some cur =>
      have := hmis cur hk
      simp [this]
  · intro s k v cur hk hne hcon
    unfold releaseSandboxStateLock
    rw [hk]
    simp [hne, hcon, redisDel_self]
  · intro s sid t
    unfold release_dev_server_lock
    exact redisDel_self _ _

/-- Claim C2 witness: concrete instances of all three release behaviours. -/
theorem lock_release_token_discipline_witness :
    releaseSandboxStateLock (fun k => if k = "L" then some "other-token" else none) "L" "tok-1" =
      (fun k => if k = "L" then some "other-token" else none) ∧
    (releaseSandboxStateLock (fun k => if k = "L" then some "starting:tok-1" else none) "L" "tok-1") "L" = none ∧
    (release_dev_server_lock (fun _ => some "anything") "sb-1" "web") "dev_server_lock:sb-1:web" = none := by
  refine ⟨?_, ?_, ?_⟩
  · exact lock_release_token_discipline.1 _ "L" "tok-1" (by intro cur h; simp at h; rw [← h]; decide)
  · exact lock_release_token_discipline.2.1 _ "L" "tok-1" "starting:tok-1" (by decide) (by decide) (by decide)
  · exact lock_release_token_discipline.2.2 _ "sb-1" "web"

/-! ## Claim C7 -/

/-- Claim C7 counterexample: with a tracked dev session whose inspection
fails, the health probe classifies the server as `session_exists`, not
`not_running`, refuting the claim that every probe failure classifies as not
running. -/
theorem probe_tracked_failure_counterexample :
    check_dev_server_status
      { tracked := true, getSession := .error "exec failed",
        portCheckSession := .error "exec failed", portCheckDirect := .error "exec failed" } =
      "session_exists" ∧
    ("session_exists" : String) ≠ "not_running" := by
  decide

theorem directPortProbe_running {env : ProbeEnv} (h : directPortProbe env = "running") :
    ∃ c, env.portCheckDirect = .ok c ∧ strStrip c ≠ "000" := by
  unfold directPortProbe at h
  cases hd : env.portCheckDirect with
  | error e => simp [hd] at h
  | ok code =>
    simp only [hd] at h
    by_cases h0 : strStrip code = "000"
    · simp [h0] at h
    · exact ⟨code, rfl, h0⟩

/-- Claim C7 (amended): the probe reports running only when one of the two
remote port checks succeeded with a code other than "000"; a failure while
inspecting a tracked session classifies as session_exists; a failure of the
direct port probe (no tracked session) classifies as not_running; no failure
propagates (the probe is a total function into the three status strings). -/
theorem probe_classification (env : ProbeEnv) :
    (check_dev_server_status env = "running" →
       (∃ c, env.portCheckSession = .ok c ∧ strStrip c ≠ "000") ∨
       (∃ c, env.portCheckDirect = .ok c ∧ strStrip c ≠ "000")) ∧
    (env.tracked = true → ∀ e, env.getSession = .error e →
       check_dev_server_status env = "session_exists") ∧
    (∀ cmds, env.tracked = true → env.getSession = .ok cmds → cmds.isEmpty = false →
       ∀ e, env.portCheckSession = .error e →
       check_dev_server_status env = "session_exists") ∧
    (env.tracked = false → ∀ e, env.portCheckDirect = .error e →
       check_dev_server_status env = "not_running") := by
  refine ⟨?_, ?_, ?_, ?_⟩
  · intro hrun
    unfold check_dev_server_status at hrun
    by_cases ht : env.tracked
    · rw [if_pos ht] at hrun
      cases hg : env.getSession with
      | error e => simp [hg] at hrun
      | ok cmds =>
        simp only [hg] at hrun
        by_cases hc : cmds.isEmpty
        · rw [if_pos hc] at hrun
          exact Or.inr (directPortProbe_running hrun)
        · rw [if_neg hc] at hrun
          cases hp : env.portCheckSession with
          | error e => simp [hp] at hrun
          | ok code =>
            simp only [hp] at hrun
            by_cases h0 : strStrip code = "000"
            · simp [h0] at hrun
            · exact Or.inl ⟨code, rfl, h0⟩
    · rw [if_neg ht] at hrun
      exact Or.inr (directPortProbe_running hrun)
  · intro ht e hg
    simp [check_dev_server_status, ht, hg]
  · intro cmds ht hg hc e hp
    simp [check_dev_server_status, ht, hg, hc, hp]
  · intro ht e hd
    simp [check_dev_server_status, directPortProbe, ht, hd]

/-- Claim C7 witness: the amended classification applied at concrete probe
environments for each clause. -/
theorem probe_classification_witness :
    check_dev_server_status
      { tracked := true, getSession := .error "boom",
        portCheckSession := .ok "200", portCheckDirect := .ok "200" } = "session_exists" ∧
    check_dev_server_status
      { tracked := true, getSession := .ok ["pnpm run dev"],
        portCheckSession := .error "timeout", portCheckDirect := .ok "200" } = "session_exists" ∧
    check_dev_server_status
      { tracked := false, getSession := .ok [],
        portCheckSession := .ok "200", portCheckDirect := .error "timeout" } = "not_running" := by
  refine ⟨?_, ?_, ?_⟩
  · exact (probe_classification _).2.1 rfl "boom" rfl
  · exact (probe_classification _).2.2.1 ["pnpm run dev"] rfl rfl (by decide) "timeout" rfl
  · exact (probe_classification _).2.2.2 rfl "timeout" rfl

/-! ## Claim C3 -/

/-- Concrete probe report used for claim C3: no tracked session, but the
direct port check answers HTTP 200, so the status check reports running. -/
def c3Probe : ProbeEnv :=
  { tracked := false, getSession := .ok [], portCheckSession := .ok "000",
    portCheckDirect := .ok "200" }

/-- Concrete environment for claim C3: dev server already answering when the
post-acquisition re-check runs. -/
def c3Env : ShellEnv :=
  { sandboxId := "sb-1", appType := "web", taskName := "task-1", now := 1000, now2 := 1001
    probeNoLock := c3Probe, probeLocked := c3Probe
    newSessionId := "uuid-1", randName := "r1"
    createSession := none, execSession := .ok "cmd-1", blockingExec := .ok ("", 0) }

/-- Claim C3: for a dev-server command with the lock acquired and the
post-acquisition health re-check reporting running, `execute_command` returns
the skipped_redundant_startup success payload and issues no session-start
call — but, contrary to the claim and to the source comment mentioning a
finally block, it does NOT release the dev-server lock: the lock key still
holds the token of this call when the function returns (only the 60 s TTL clears
it). -/
theorem exec_already_running_keeps_lock :
    (execute_command c3Env "pnpm run dev" none false emptyStore []).1 =
      ExecResponse.skippedRedundant msgAlreadyRunningLocked ∧
    (execute_command c3Env "pnpm run dev" none false emptyStore []).2.2.2 = [] ∧
    (execute_command c3Env "pnpm run dev" none false emptyStore []).2.1
        "dev_server_start:sb-1:web" = some "1000:task-1" := by
  decide

/-! ## Claim C10 -/

/-- Claim C10: the discovery helpers turn every provider list failure into
`None` / the empty list, indistinguishable from a genuinely empty provider
result, and never raise. -/
theorem discovery_swallows_failures (e pid aid : String) (labels : List (String × String)) :
    find_sandbox_by_project pid (.error e) = none ∧
    find_sandboxes_by_account aid (.error e) = [] ∧
    find_sandboxes_by_labels labels (.error e) = [] ∧
    find_sandbox_by_project pid (.error e) = find_sandbox_by_project pid (.ok []) ∧
    find_sandboxes_by_account aid (.error e) = find_sandboxes_by_account aid (.ok []) ∧
    find_sandboxes_by_labels labels (.error e) = find_sandboxes_by_labels labels (.ok []) :=
  ⟨rfl, rfl, rfl, rfl, rfl, rfl⟩

end Cheatcode
